import Mathlib

set_option maxRecDepth 100000

/-!
# Verification of the grainlify program-escrow core

Shallow embedding of the Soroban program-escrow contract
(`src/soroban/contracts/program-escrow/src/lib.rs`) and of the threshold
monitor declarations (`src/contracts/program-escrow/src/threshold_monitor.rs`).

Modelling conventions:

* Soroban `Address` and `String` values are opaque identifiers; we model
  addresses as `Nat` and program ids as `String`.
* Machine integers: `u64` is a `Nat` kept below `2 ^ 64`, `i128` is an `Int`
  kept within the signed 128-bit range.  Soroban contract crates are built
  with overflow checks enabled, so an arithmetic overflow traps and aborts
  the invocation; we embed each potentially overflowing operation with an
  explicit bound check that aborts (returns an error) exactly where the
  checked operation would trap.
* A trap (Rust `panic`) inside a Soroban contract invocation makes the host
  abort the invocation and revert every storage write the invocation made.
  We therefore embed every entry point as a function
  `EscrowState → Except Err (EscrowState × result)`: on `Except.error` the
  caller's pre-call state persists unchanged, which is exactly the host's
  rollback semantics.  The rolled-back intermediate writes are still visible
  in the embedding (e.g. the incremented nonce map produced by
  `validate_and_increment_nonce` is discarded when a later check fails).
* `require_auth` delegates to the external identity collaborator, which is
  out of scope of the spec; we model authorization as granted (the tests run
  with `mock_all_auths`).
-/

/-- Signer / recipient addresses, modelled as opaque numeric identifiers. -/
abbrev Addr : Type := Nat

/-- Exclusive upper bound of `u64`. -/
def u64Limit : Nat := 2 ^ 64

/-- Largest `i128` value. -/
def i128Max : Int := 2 ^ 127 - 1

/-- Error outcomes of the contract entry points.  The Rust code reports each
of these by trapping with a message; we name the variants after the spec's
error taxonomy (§7). -/
inductive Err : Type where
  | AlreadyInit : Err
  | NotInit : Err
  | InvalidAmount : Err
  | InsufficientBalance : Err
  | InvalidNonce (expected got : Nat) : Err
  | Overflow : Err
  deriving DecidableEq, Repr

/-- Per-signer nonce storage: a total map with default `0`, mirroring
`env.storage().persistent().get(&key).unwrap_or(0)`. -/
abbrev NonceMap : Type := Addr → Nat

/-- The empty nonce storage: no signer has ever transacted. -/
def NonceMap.empty : NonceMap := fun _ => 0

/-- `nonce::get_nonce`: returns the stored counter, `0` when absent. -/
def get_nonce (m : NonceMap) (signer : Addr) : Nat := m signer

/-- `nonce::validate_and_increment_nonce`: traps with `Invalid nonce:
expected .., got ..` when the provided nonce differs from the current one;
otherwise stores `current + 1` (checked `u64` addition).  Returns the updated
nonce storage. -/
def validate_and_increment_nonce (m : NonceMap) (signer : Addr)
    (provided : Nat) : Except Err NonceMap :=
  let current := get_nonce m signer
  if provided = current then
    if current + 1 < u64Limit then
      Except.ok (fun t => if t = signer then current + 1 else m t)
    else
      Except.error Err.Overflow
  else
    Except.error (Err.InvalidNonce current provided)

/-- `PayoutRecord` from `lib.rs`. -/
structure PayoutRecord : Type where
  recipient : Addr
  amount : Int
  timestamp : Nat
  deriving DecidableEq, Repr

/-- `ProgramData` from `lib.rs`.  `payout_history` is the append-only list of
payout records (Soroban `Vec`, pushed at the back). -/
structure ProgramData : Type where
  program_id : String
  total_funds : Int
  remaining_balance : Int
  authorized_payout_key : Addr
  payout_history : List PayoutRecord
  deriving DecidableEq, Repr

/-- The contract's observable storage plus the ledger clock it reads:
`programData` is the instance-storage entry under the `ProgData` key
(`none` before `init_program`), `nonces` is the persistent per-signer nonce
storage, and `now` is `env.ledger().timestamp()`. -/
structure EscrowState : Type where
  programData : Option ProgramData
  nonces : NonceMap
  now : Nat

/-- The contract state at deployment: nothing initialized, all nonces 0. -/
def EscrowState.initial : EscrowState :=
  { programData := none, nonces := NonceMap.empty, now := 0 }

/-- `init_program`: traps if the `ProgData` key already exists, otherwise
stores a zero-balance ledger with the supplied authorized key and returns
it. -/
def init_program (s : EscrowState) (program_id : String)
    (authorized_payout_key : Addr) : Except Err (EscrowState × ProgramData) :=
  match s.programData with
  | some _ => Except.error Err.AlreadyInit
  | none =>
    let pd : ProgramData :=
      { program_id := program_id
        total_funds := 0
        remaining_balance := 0
        authorized_payout_key := authorized_payout_key
        payout_history := [] }
    Except.ok ({ s with programData := some pd }, pd)

/-- `lock_program_funds`: traps when `amount <= 0`, then when the program is
not initialized; otherwise performs the two checked `i128` additions
`total_funds += amount` and `remaining_balance += amount` and stores the
result. -/
def lock_program_funds (s : EscrowState) (amount : Int) :
    Except Err (EscrowState × ProgramData) :=
  if amount ≤ 0 then Except.error Err.InvalidAmount
  else
    match s.programData with
    | none => Except.error Err.NotInit
    | some pd =>
      if i128Max < pd.total_funds + amount then Except.error Err.Overflow
      else if i128Max < pd.remaining_balance + amount then
        Except.error Err.Overflow
      else
        let pd' : ProgramData :=
          { pd with
            total_funds := pd.total_funds + amount
            remaining_balance := pd.remaining_balance + amount }
        Except.ok ({ s with programData := some pd' }, pd')

/-- `single_payout`: loads the program data (trapping with `Program not
initialized` first), requires authorization of the stored key (external
collaborator, modelled as granted), validates and increments the key's
nonce, then checks `amount > 0` and `amount <= remaining_balance`, and on
success decrements the balance, appends a `PayoutRecord` stamped with the
ledger timestamp, and commits the new state. -/
def single_payout (s : EscrowState) (recipient : Addr) (amount : Int)
    (nonce : Nat) : Except Err (EscrowState × ProgramData) :=
  match s.programData with
  | none => Except.error Err.NotInit
  | some pd =>
    match validate_and_increment_nonce s.nonces pd.authorized_payout_key
        nonce with
    | Except.error e => Except.error e
    | Except.ok nonces' =>
      if amount ≤ 0 then Except.error Err.InvalidAmount
      else if pd.remaining_balance < amount then
        Except.error Err.InsufficientBalance
      else
        let record : PayoutRecord :=
          { recipient := recipient, amount := amount, timestamp := s.now }
        let pd' : ProgramData :=
          { pd with
            remaining_balance := pd.remaining_balance - amount
            payout_history := pd.payout_history ++ [record] }
        Except.ok ({ s with programData := some pd', nonces := nonces' }, pd')

/-- `get_program_info`: read-only accessor. -/
def get_program_info (s : EscrowState) : Except Err ProgramData :=
  match s.programData with
  | none => Except.error Err.NotInit
  | some pd => Except.ok pd

/-- `get_remaining_balance`: read-only accessor. -/
def get_remaining_balance (s : EscrowState) : Except Err Int :=
  match s.programData with
  | none => Except.error Err.NotInit
  | some pd => Except.ok pd.remaining_balance

/-- One external call to the contract.  `setTime` stands for the ledger
clock advancing between calls (the clock is an external collaborator). -/
inductive Op : Type where
  | init (program_id : String) (key : Addr) : Op
  | lock (amount : Int) : Op
  | payout (recipient : Addr) (amount : Int) (nonce : Nat) : Op
  | setTime (t : Nat) : Op

/-- The state after one call, with the host's transactional semantics: a
successful call commits its new state, a trapped call leaves the pre-call
state untouched (all its writes are reverted). -/
def applyOp (s : EscrowState) (op : Op) : EscrowState :=
  match op with
  | Op.init pid key =>
    match init_program s pid key with
    | Except.ok (s', _) => s'
    | Except.error _ => s
  | Op.lock amount =>
    match lock_program_funds s amount with
    | Except.ok (s', _) => s'
    | Except.error _ => s
  | Op.payout r amount nonce =>
    match single_payout s r amount nonce with
    | Except.ok (s', _) => s'
    | Except.error _ => s
  | Op.setTime t => { s with now := t }

/-- The state after a sequence of calls starting from `s`. -/
def runOps (s : EscrowState) (ops : List Op) : EscrowState :=
  ops.foldl applyOp s

/-- `ThresholdConfig` from `threshold_monitor.rs` (`u32` and `u64` fields as
`Nat`, `i128` fields as `Int`). -/
structure ThresholdConfig : Type where
  failure_rate_threshold : Nat
  outflow_volume_threshold : Int
  max_single_payout : Int
  time_window_secs : Nat
  cooldown_period_secs : Nat
  cooldown_multiplier : Nat
  deriving DecidableEq, Repr

/-- `ThresholdConfig::default` from `threshold_monitor.rs`. -/
def ThresholdConfig.default : ThresholdConfig :=
  { failure_rate_threshold := 10
    outflow_volume_threshold := 50000000000000
    max_single_payout := 5000000000000
    time_window_secs := 600
    cooldown_period_secs := 300
    cooldown_multiplier := 2 }

/-- `ThresholdConfig::validate` from `threshold_monitor.rs`, check for
check. -/
def ThresholdConfig.validate (c : ThresholdConfig) : Except String Unit :=
  if c.failure_rate_threshold = 0 ∨ 1000 < c.failure_rate_threshold then
    Except.error "Failure threshold must be between 1 and 1000"
  else if c.outflow_volume_threshold ≤ 0 then
    Except.error "Outflow threshold must be greater than zero"
  else if c.max_single_payout ≤ 0 then
    Except.error "Max single payout must be greater than zero"
  else if c.time_window_secs < 10 ∨ 86400 < c.time_window_secs then
    Except.error "Time window must be between 10 and 86400 seconds"
  else if c.cooldown_period_secs < 60 ∨ 3600 < c.cooldown_period_secs then
    Except.error "Cooldown period must be between 60 and 3600 seconds"
  else
    Except.ok ()

/-- The configuration bounds as the spec's data-model section states them:
all six fields are constrained, including `cooldown_multiplier ≥ 1`.  This
definition follows the spec's words, to be compared with
`ThresholdConfig.validate`, which is translated from the source. -/
def ThresholdConfig.specBounds (c : ThresholdConfig) : Prop :=
  1 ≤ c.failure_rate_threshold ∧ c.failure_rate_threshold ≤ 1000 ∧
  0 < c.outflow_volume_threshold ∧ 0 < c.max_single_payout ∧
  10 ≤ c.time_window_secs ∧ c.time_window_secs ≤ 86400 ∧
  60 ≤ c.cooldown_period_secs ∧ c.cooldown_period_secs ≤ 3600 ∧
  1 ≤ c.cooldown_multiplier

instance (c : ThresholdConfig) : Decidable c.specBounds := by
  unfold ThresholdConfig.specBounds
  infer_instance

/-- `WindowMetrics` from `threshold_monitor.rs`. -/
structure WindowMetrics : Type where
  window_start : Nat
  failure_count : Nat
  success_count : Nat
  total_outflow : Int
  max_single_outflow : Int
  breach_count : Nat
  deriving DecidableEq, Repr

/-- `WindowMetrics::new` from `threshold_monitor.rs`. -/
def WindowMetrics.new (window_start : Nat) : WindowMetrics :=
  { window_start := window_start
    failure_count := 0
    success_count := 0
    total_outflow := 0
    max_single_outflow := 0
    breach_count := 0 }

/-- Admission-check rejections of the threshold monitor (error codes
`ERR_COOLDOWN_ACTIVE` and `ERR_THRESHOLD_BREACHED` in
`threshold_monitor.rs`). -/
inductive AdmissionError : Type where
  | CooldownActive (untilTime : Nat) : AdmissionError
  | ThresholdBreached : AdmissionError
  deriving DecidableEq, Repr

/-- Modelled from the spec: the threshold monitor's mutable state — the
validated config, the current window's metrics, and the stored
`last_cooldown_end` timestamp (storage keys `Config`, `CurrentMetrics`,
`LastCooldownEnd` in `threshold_monitor.rs`).  The monitor logic itself
lives in `src/contracts/program-escrow/src/lib.rs`, which is absent from
the source tree; only its type and error-code declarations
(`threshold_monitor.rs`) and its tests are present. -/
structure MonitorState : Type where
  config : ThresholdConfig
  current : WindowMetrics
  lastCooldownEnd : Nat

/-- Modelled from the spec (§4.3 step 4): record a breach — increment the
current window's `breach_count` and set
`last_cooldown_end = now + cooldown_period_secs * cooldown_multiplier ^
breach_count` (the scenario in §8 fixes the exponent as the pre-increment
breach count: the first breach yields `now + cooldown_period_secs`). -/
def recordBreach (m : MonitorState) (now : Nat) : MonitorState :=
  { m with
    current := { m.current with breach_count := m.current.breach_count + 1 }
    lastCooldownEnd :=
      now + m.config.cooldown_period_secs *
        m.config.cooldown_multiplier ^ m.current.breach_count }

/-- Modelled from the spec (§4.3 step 2): the admission check run before the
business mutation.  If `now < last_cooldown_end` the call is rejected with
`CooldownActive`; otherwise if `amount > max_single_payout` the call is
rejected with `ThresholdBreached` and the breach is recorded immediately
(step 4), opening the breaker; otherwise the call is admitted.  Returns the
(possibly updated) monitor state together with the verdict. -/
def admissionCheck (m : MonitorState) (now : Nat) (amount : Int) :
    MonitorState × Option AdmissionError :=
  if now < m.lastCooldownEnd then
    (m, some (AdmissionError.CooldownActive m.lastCooldownEnd))
  else if m.config.max_single_payout < amount then
    (recordBreach m now, some AdmissionError.ThresholdBreached)
  else
    (m, none)

/-- Modelled from the spec (§2 control flow, §4.3 step 2): the
threshold-integrated `single_payout` of
`src/contracts/program-escrow/src/lib.rs` (absent from the source tree)
runs the monitor's admission check before the escrow's business mutation;
a rejected call leaves the escrow state untouched while the breach
recording of the admission check itself persists. -/
def monitored_single_payout (m : MonitorState) (s : EscrowState)
    (recipient : Addr) (amount : Int) (nonce : Nat) :
    MonitorState × EscrowState × Option AdmissionError :=
  match admissionCheck m s.now amount with
  | (m', some e) => (m', s, some e)
  | (m', none) => (m', applyOp s (Op.payout recipient amount nonce), none)

/-- The spec's ledger invariant: whenever a program is stored,
`0 ≤ remaining_balance ≤ total_funds`. -/
def balInv (s : EscrowState) : Prop :=
  ∀ pd, s.programData = some pd →
    0 ≤ pd.remaining_balance ∧ pd.remaining_balance ≤ pd.total_funds

/-- A freshly initialized ledger holding no funds, with authorized key 7:
the state reached by `init_program` alone.  Used to exercise the theorems on
concrete inputs. -/
def emptyLedgerState : EscrowState :=
  { programData := some
      { program_id := "p", total_funds := 0, remaining_balance := 0,
        authorized_payout_key := 7, payout_history := [] }
    nonces := NonceMap.empty
    now := 0 }

/-- A ledger with 100_000_000_000 locked and authorized key 7: the state
reached by `init_program` followed by `lock_program_funds 100_000_000_000`.
Used to exercise the theorems on concrete inputs. -/
def fundedLedgerState : EscrowState :=
  { programData := some
      { program_id := "p", total_funds := 100000000000,
        remaining_balance := 100000000000, authorized_payout_key := 7,
        payout_history := [] }
    nonces := NonceMap.empty
    now := 0 }

/-! ## Helper lemmas -/

theorem balInv_initial : balInv EscrowState.initial := by
  intro pd h
  simp [EscrowState.initial] at h

theorem balInv_applyOp (s : EscrowState) (op : Op) (h : balInv s) :
    balInv (applyOp s op) := by
  cases op with
  | init pid key =>
    simp only [applyOp]
    split
    · next s' pd heq =>
      unfold init_program at heq
      split at heq
      · exact absurd heq (by simp)
      · simp only [Except.ok.injEq, Prod.mk.injEq] at heq
        intro q hq
        rw [← heq.1] at hq
        simp only [Option.some.injEq] at hq
        subst hq
        simp
    · exact h
  | lock amount =>
    simp only [applyOp]
    split
    · next s' pd heq =>
      unfold lock_program_funds at heq
      split at heq
      · exact absurd heq (by simp)
      · next hpos =>
        split at heq
        · exact absurd heq (by simp)
        · next pd0 hpd0 =>
          split at heq
          · exact absurd heq (by simp)
          · next hov1 =>
            split at heq
            · exact absurd heq (by simp)
            · next hov2 =>
              simp only [Except.ok.injEq, Prod.mk.injEq] at heq
              intro q hq
              rw [← heq.1] at hq
              simp only [Option.some.injEq] at hq
              subst hq
              have hb := h pd0 hpd0
              refine ⟨?_, ?_⟩
              · show (0:Int) ≤ pd0.remaining_balance + amount
                omega
              · show pd0.remaining_balance + amount ≤
                  pd0.total_funds + amount
                omega
    · exact h
  | payout r amount nonce =>
    simp only [applyOp]
    split
    · next s' pd heq =>
      unfold single_payout at heq
      split at heq
      · exact absurd heq (by simp)
      · next pd0 hpd0 =>
        split at heq
        · exact absurd heq (by simp)
        · next n' hn' =>
          split at heq
          · exact absurd heq (by simp)
          · next hle =>
            split at heq
            · exact absurd heq (by simp)
            · next hlt =>
              simp only [Except.ok.injEq, Prod.mk.injEq] at heq
              intro q hq
              rw [← heq.1] at hq
              simp only [Option.some.injEq] at hq
              subst hq
              have hb := h pd0 hpd0
              refine ⟨?_, ?_⟩
              · show (0:Int) ≤ pd0.remaining_balance - amount
                omega
              · show pd0.remaining_balance - amount ≤ pd0.total_funds
                omega
    · exact h
  | setTime t =>
    intro pd hpd
    exact h pd hpd

theorem balInv_runOps (ops : List Op) (s : EscrowState) (h : balInv s) :
    balInv (runOps s ops) := by
  induction ops generalizing s with
  | nil => exact h
  | cons op rest ih =>
    simp only [runOps, List.foldl] at *
    exact ih (applyOp s op) (balInv_applyOp s op h)

/-! ## Claims -/

/-- C2: for every sequence of `init_program`, `lock_program_funds` and
`single_payout` calls (with the ledger clock advancing arbitrarily between
calls), the stored `ProgramData` satisfies
`0 ≤ remaining_balance ≤ total_funds` after every operation. -/
theorem escrow_balance_invariant (ops : List Op) (pd : ProgramData)
    (h : (runOps EscrowState.initial ops).programData = some pd) :
    0 ≤ pd.remaining_balance ∧ pd.remaining_balance ≤ pd.total_funds :=
  balInv_runOps ops EscrowState.initial balInv_initial pd h

/-- Witness for C2: the invariant evaluated on the concrete run
init → lock 5 → payout 3. -/
theorem escrow_balance_invariant_witness :
    (0:Int) ≤ (2:Int) ∧ (2:Int) ≤ (5:Int) := by
  have h := escrow_balance_invariant
    [Op.init "p" 7, Op.lock 5, Op.payout 2 3 0]
    { program_id := "p", total_funds := 5, remaining_balance := 2,
      authorized_payout_key := 7,
      payout_history := [{ recipient := 2, amount := 3, timestamp := 0 }] }
    rfl
  exact h

/-- Shared success equation for `single_payout`: with the program
initialized, the correct nonce supplied, a positive amount within the
balance, and no nonce-counter overflow, the call commits the decremented
balance, the appended record, and the incremented nonce. -/
theorem single_payout_ok_eq (s : EscrowState) (pd : ProgramData)
    (h : s.programData = some pd) (recipient : Addr) (amount : Int)
    (ha : 0 < amount) (hb : amount ≤ pd.remaining_balance)
    (hlim : s.nonces pd.authorized_payout_key + 1 < u64Limit) :
    single_payout s recipient amount (s.nonces pd.authorized_payout_key) =
      Except.ok
        ({ s with
            programData := some
              { pd with
                remaining_balance := pd.remaining_balance - amount
                payout_history := pd.payout_history ++
                  [{ recipient := recipient, amount := amount,
                     timestamp := s.now }] }
            nonces := fun t =>
              if t = pd.authorized_payout_key then
                s.nonces pd.authorized_payout_key + 1
              else s.nonces t },
         { pd with
            remaining_balance := pd.remaining_balance - amount
            payout_history := pd.payout_history ++
              [{ recipient := recipient, amount := amount,
                 timestamp := s.now }] }) := by
  unfold single_payout
  rw [h]
  unfold validate_and_increment_nonce get_nonce
  simp [hlim, not_le.mpr ha, not_lt.mpr hb]

/-- C1: with the program initialized and `c` the signer's current stored
nonce, `single_payout` with any provided nonce `n ≠ c` fails with
`InvalidNonce` for every amount — including amounts that would also fail the
amount or balance checks, so the nonce failure precedes business
validation — and the failed call leaves the whole state (the stored nonce in
particular) unchanged; supplying exactly `c` (with the business checks
passing) increments the stored nonce to `c + 1`. -/
theorem nonce_gate_single_payout (s : EscrowState) (pd : ProgramData)
    (h : s.programData = some pd) :
    (∀ (recipient : Addr) (amount : Int) (n : Nat),
      n ≠ s.nonces pd.authorized_payout_key →
      single_payout s recipient amount n =
        Except.error
          (Err.InvalidNonce (s.nonces pd.authorized_payout_key) n) ∧
      applyOp s (Op.payout recipient amount n) = s) ∧
    (∀ (recipient : Addr) (amount : Int), 0 < amount →
      amount ≤ pd.remaining_balance →
      s.nonces pd.authorized_payout_key + 1 < u64Limit →
      (applyOp s (Op.payout recipient amount
          (s.nonces pd.authorized_payout_key))).nonces
          pd.authorized_payout_key =
        s.nonces pd.authorized_payout_key + 1) := by
  constructor
  · intro r a n hn
    have he : single_payout s r a n =
        Except.error
          (Err.InvalidNonce (s.nonces pd.authorized_payout_key) n) := by
      unfold single_payout
      rw [h]
      unfold validate_and_increment_nonce get_nonce
      simp [hn]
    refine ⟨he, ?_⟩
    simp only [applyOp]
    rw [he]
  · intro r a ha hb hlim
    simp only [applyOp]
    rw [single_payout_ok_eq s pd h r a ha hb hlim]
    simp

/-- Witness for C1: on a funded ledger with stored nonce 0, providing nonce
5 (a gap) fails with `InvalidNonce 0 5`, and providing nonce 0 increments
the stored counter to 1. -/
theorem nonce_gate_single_payout_witness :
    single_payout fundedLedgerState 2 10000000000 5 =
      Except.error (Err.InvalidNonce 0 5) ∧
    (applyOp fundedLedgerState (Op.payout 2 10000000000 0)).nonces 7 = 1 := by
  have h := nonce_gate_single_payout fundedLedgerState
    { program_id := "p", total_funds := 100000000000,
      remaining_balance := 100000000000, authorized_payout_key := 7,
      payout_history := [] } rfl
  exact ⟨(h.1 2 10000000000 5 (by decide)).1,
    h.2 2 10000000000 (by decide) (by decide) (by decide)⟩

/-- C3 (spec-modelled: the threshold-integrated payout path lives in
`src/contracts/program-escrow/src/lib.rs`, absent from the source tree):
when the breaker is closed, a payout request whose amount exceeds the
configured `max_single_payout` is rejected with `ThresholdBreached` before
the escrow mutation executes (the escrow state is untouched), the rejection
is recorded as a breach (the current window's `breach_count` increments),
and the breach opens the circuit breaker (`last_cooldown_end` moves
strictly past `now`). -/
theorem threshold_breach_admission (m : MonitorState) (s : EscrowState)
    (recipient : Addr) (amount : Int) (nonce : Nat)
    (hclosed : m.lastCooldownEnd ≤ s.now)
    (hover : m.config.max_single_payout < amount)
    (hcp : 1 ≤ m.config.cooldown_period_secs)
    (hcm : 1 ≤ m.config.cooldown_multiplier) :
    (monitored_single_payout m s recipient amount nonce).2.2 =
      some AdmissionError.ThresholdBreached ∧
    (monitored_single_payout m s recipient amount nonce).2.1 = s ∧
    (monitored_single_payout m s recipient amount
        nonce).1.current.breach_count = m.current.breach_count + 1 ∧
    s.now < (monitored_single_payout m s recipient amount
        nonce).1.lastCooldownEnd := by
  have hpow : 0 < m.config.cooldown_multiplier ^ m.current.breach_count :=
    pow_pos hcm _
  have hstep : 0 < m.config.cooldown_period_secs *
      m.config.cooldown_multiplier ^ m.current.breach_count :=
    Nat.mul_pos hcp hpow
  unfold monitored_single_payout admissionCheck recordBreach
  simp [not_lt.mpr hclosed, hover]
  omega

/-- Witness for C3: the spec's scenario — with the default configuration
(`max_single_payout = 500_000_0000000`), a payout of `600_000_0000000` is
rejected with `ThresholdBreached` and the breach is recorded. -/
theorem threshold_breach_admission_witness :
    (monitored_single_payout
      { config := ThresholdConfig.default
        current := WindowMetrics.new 0
        lastCooldownEnd := 0 }
      fundedLedgerState 2 6000000000000 0).2.2 =
      some AdmissionError.ThresholdBreached ∧
    (monitored_single_payout
      { config := ThresholdConfig.default
        current := WindowMetrics.new 0
        lastCooldownEnd := 0 }
      fundedLedgerState 2 6000000000000 0).1.current.breach_count = 1 := by
  have h := threshold_breach_admission
    { config := ThresholdConfig.default
      current := WindowMetrics.new 0
      lastCooldownEnd := 0 }
    fundedLedgerState 2 6000000000000 0 (by decide) (by decide) (by decide)
    (by decide)
  exact ⟨h.1, h.2.2.1⟩

/-- Counterexample for C4: `ThresholdConfig::validate` never examines
`cooldown_multiplier`, so a configuration with `cooldown_multiplier = 0` —
violating the spec's `cooldown_multiplier ≥ 1` bound — is accepted. -/
theorem validate_missing_multiplier_check_cex :
    ThresholdConfig.validate
      { failure_rate_threshold := 10, outflow_volume_threshold := 1,
        max_single_payout := 1, time_window_secs := 600,
        cooldown_period_secs := 300, cooldown_multiplier := 0 } =
      Except.ok () ∧
    ¬ ThresholdConfig.specBounds
      { failure_rate_threshold := 10, outflow_volume_threshold := 1,
        max_single_payout := 1, time_window_secs := 600,
        cooldown_period_secs := 300, cooldown_multiplier := 0 } :=
  ⟨rfl, by decide⟩

/-- C4 as amended: `ThresholdConfig::validate` returns `Ok` exactly for
configurations satisfying the five bounds it checks —
`failure_rate_threshold` in 1..=1000, `outflow_volume_threshold > 0`,
`max_single_payout > 0`, `time_window_secs` in 10..=86400 and
`cooldown_period_secs` in 60..=3600 — and an error otherwise;
`cooldown_multiplier` is not validated. -/
theorem validate_ok_iff (c : ThresholdConfig) :
    c.validate = Except.ok () ↔
      (1 ≤ c.failure_rate_threshold ∧ c.failure_rate_threshold ≤ 1000 ∧
       0 < c.outflow_volume_threshold ∧ 0 < c.max_single_payout ∧
       10 ≤ c.time_window_secs ∧ c.time_window_secs ≤ 86400 ∧
       60 ≤ c.cooldown_period_secs ∧ c.cooldown_period_secs ≤ 3600) := by
  unfold ThresholdConfig.validate
  split_ifs with h1 h2 h3 h4 h5 <;> simp <;> omega

/-- Counterexample for C5: on an initialized ledger with zero balance and
stored nonce 0, `single_payout` with the correct nonce 0 passes nonce
validation and then fails the balance check with `InsufficientBalance` —
and the stored counter afterwards is still 0, not 1: the host reverts the
nonce increment together with the rest of the aborted invocation, so the
nonce is not consumed. -/
theorem nonce_consumed_on_failure_cex :
    single_payout emptyLedgerState 2 5 0 =
      Except.error Err.InsufficientBalance ∧
    (applyOp emptyLedgerState (Op.payout 2 5 0)).nonces 7 = 0 :=
  ⟨rfl, rfl⟩

/-- C5 as amended: a business-logic failure occurring after a successful
nonce validation within the same call (here an insufficient-balance failure
in `single_payout`) aborts the whole invocation, and the host's rollback
reverts the nonce increment with it: the call commits no observable state
change at all, so the signer's stored counter is NOT consumed. -/
theorem business_failure_reverts_nonce (s : EscrowState) (pd : ProgramData)
    (h : s.programData = some pd) (recipient : Addr) (amount : Int)
    (ha : 0 < amount) (hb : pd.remaining_balance < amount)
    (hlim : s.nonces pd.authorized_payout_key + 1 < u64Limit) :
    single_payout s recipient amount (s.nonces pd.authorized_payout_key) =
      Except.error Err.InsufficientBalance ∧
    applyOp s (Op.payout recipient amount
      (s.nonces pd.authorized_payout_key)) = s := by
  have he : single_payout s recipient amount
      (s.nonces pd.authorized_payout_key) =
      Except.error Err.InsufficientBalance := by
    unfold single_payout
    rw [h]
    unfold validate_and_increment_nonce get_nonce
    simp [hlim, not_le.mpr ha, hb]
  refine ⟨he, ?_⟩
  simp only [applyOp]
  rw [he]

/-- Witness for C5's amended statement, on the zero-balance ledger. -/
theorem business_failure_reverts_nonce_witness :
    single_payout emptyLedgerState 2 7 0 =
      Except.error Err.InsufficientBalance ∧
    applyOp emptyLedgerState (Op.payout 2 7 0) = emptyLedgerState := by
  have h := business_failure_reverts_nonce emptyLedgerState
    { program_id := "p", total_funds := 0, remaining_balance := 0,
      authorized_payout_key := 7, payout_history := [] }
    rfl 2 7 (by decide) (by decide) (by decide)
  exact h

/-- C6: every signer's nonce is 0 before any successful nonce-consuming
call, a successful `validate_and_increment_nonce` raises exactly that
signer's counter by exactly 1, and every other signer's counter is
untouched. -/
theorem nonce_counter_semantics :
    (∀ signer : Addr, get_nonce NonceMap.empty signer = 0) ∧
    (∀ (m : NonceMap) (signer : Addr) (provided : Nat) (m' : NonceMap),
      validate_and_increment_nonce m signer provided = Except.ok m' →
      get_nonce m' signer = get_nonce m signer + 1 ∧
      ∀ t : Addr, t ≠ signer → get_nonce m' t = get_nonce m t) := by
  constructor
  · intro signer
    rfl
  · intro m signer provided m' hm
    unfold validate_and_increment_nonce at hm
    simp only [get_nonce] at hm
    split_ifs at hm with h1 h2
    · simp only [Except.ok.injEq] at hm
      subst hm
      constructor
      · unfold get_nonce
        simp
      · intro t ht
        unfold get_nonce
        simp [ht]

/-- Witness for C6: incrementing signer 0 from the empty registry yields
counter 1 for signer 0 and leaves signer 5 at its previous value. -/
theorem nonce_counter_semantics_witness :
    get_nonce (fun t : Addr => if t = 0 then 1 else NonceMap.empty t) 0 =
      get_nonce NonceMap.empty 0 + 1 ∧
    get_nonce (fun t : Addr => if t = 0 then 1 else NonceMap.empty t) 5 =
      get_nonce NonceMap.empty 5 := by
  have h := nonce_counter_semantics.2 NonceMap.empty 0 0
    (fun t : Addr => if t = 0 then 1 else NonceMap.empty t) rfl
  exact ⟨h.1, h.2 5 (by decide)⟩

/-- C7: a successful `single_payout` decreases `remaining_balance` by
exactly the amount, appends exactly one `PayoutRecord` carrying the
recipient, the amount and the current ledger timestamp at the back of
`payout_history` (earlier records untouched), increments the signer's
nonce, and leaves `total_funds`, `program_id` and `authorized_payout_key`
unchanged. -/
theorem single_payout_effects (s : EscrowState) (pd : ProgramData)
    (h : s.programData = some pd) (recipient : Addr) (amount : Int)
    (ha : 0 < amount) (hb : amount ≤ pd.remaining_balance)
    (hlim : s.nonces pd.authorized_payout_key + 1 < u64Limit) :
    single_payout s recipient amount (s.nonces pd.authorized_payout_key) =
      Except.ok
        ({ s with
            programData := some
              { pd with
                remaining_balance := pd.remaining_balance - amount
                payout_history := pd.payout_history ++
                  [{ recipient := recipient, amount := amount,
                     timestamp := s.now }] }
            nonces := fun t =>
              if t = pd.authorized_payout_key then
                s.nonces pd.authorized_payout_key + 1
              else s.nonces t },
         { pd with
            remaining_balance := pd.remaining_balance - amount
            payout_history := pd.payout_history ++
              [{ recipient := recipient, amount := amount,
                 timestamp := s.now }] }) :=
  single_payout_ok_eq s pd h recipient amount ha hb hlim

/-- Witness for C7: the spec's scenario — after locking 100_000_000_000, a
payout of 10_000_000_000 with nonce 0 leaves balance 90_000_000_000, one
history record, and the signer's nonce at 1. -/
theorem single_payout_effects_witness :
    single_payout fundedLedgerState 2 10000000000 0 =
      Except.ok
        ({ programData := some
             { program_id := "p", total_funds := 100000000000,
               remaining_balance := 90000000000,
               authorized_payout_key := 7,
               payout_history :=
                 [{ recipient := 2, amount := 10000000000,
                    timestamp := 0 }] }
           nonces := (fun t : Addr => if t = 7 then 1 else 0)
           now := 0 },
         { program_id := "p", total_funds := 100000000000,
           remaining_balance := 90000000000, authorized_payout_key := 7,
           payout_history :=
             [{ recipient := 2, amount := 10000000000, timestamp := 0 }] }) :=
  single_payout_effects fundedLedgerState
    { program_id := "p", total_funds := 100000000000,
      remaining_balance := 100000000000, authorized_payout_key := 7,
      payout_history := [] } rfl 2 10000000000 (by decide) (by decide)
    (by decide)

/-- C8: `lock_program_funds` fails with `InvalidAmount` whenever
`amount ≤ 0` (leaving the state unchanged), and on success increases both
`total_funds` and `remaining_balance` by exactly the amount while leaving
every signer's nonce counter unchanged. -/
theorem lock_program_funds_spec (s : EscrowState) (amount : Int) :
    (amount ≤ 0 →
      lock_program_funds s amount = Except.error Err.InvalidAmount ∧
      applyOp s (Op.lock amount) = s) ∧
    (∀ pd, s.programData = some pd → 0 < amount →
      pd.total_funds + amount ≤ i128Max →
      pd.remaining_balance + amount ≤ i128Max →
      lock_program_funds s amount =
        Except.ok
          ({ s with
              programData := some
                { pd with
                  total_funds := pd.total_funds + amount
                  remaining_balance := pd.remaining_balance + amount } },
           { pd with
              total_funds := pd.total_funds + amount
              remaining_balance := pd.remaining_balance + amount }) ∧
      (applyOp s (Op.lock amount)).nonces = s.nonces) := by
  constructor
  · intro hneg
    have he : lock_program_funds s amount =
        Except.error Err.InvalidAmount := by
      unfold lock_program_funds
      simp [hneg]
    refine ⟨he, ?_⟩
    simp only [applyOp]
    rw [he]
  · intro pd hpd hpos hov1 hov2
    have hok : lock_program_funds s amount =
        Except.ok
          ({ s with
              programData := some
                { pd with
                  total_funds := pd.total_funds + amount
                  remaining_balance := pd.remaining_balance + amount } },
           { pd with
              total_funds := pd.total_funds + amount
              remaining_balance := pd.remaining_balance + amount }) := by
      unfold lock_program_funds
      simp [hpd, not_le.mpr hpos, not_lt.mpr hov1, not_lt.mpr hov2]
    refine ⟨hok, ?_⟩
    simp only [applyOp]
    rw [hok]

/-- Witness for C8: locking -3 on the initialized ledger fails with
`InvalidAmount`; locking 5 raises both totals from 0 to 5 with the nonce
storage untouched. -/
theorem lock_program_funds_spec_witness :
    lock_program_funds emptyLedgerState (-3) =
      Except.error Err.InvalidAmount ∧
    lock_program_funds emptyLedgerState 5 =
      Except.ok
        ({ programData := some
             { program_id := "p", total_funds := 5,
               remaining_balance := 5, authorized_payout_key := 7,
               payout_history := [] }
           nonces := NonceMap.empty
           now := 0 },
         { program_id := "p", total_funds := 5, remaining_balance := 5,
           authorized_payout_key := 7, payout_history := [] }) := by
  have h1 := (lock_program_funds_spec emptyLedgerState (-3)).1 (by decide)
  have h2 := (lock_program_funds_spec emptyLedgerState 5).2
    { program_id := "p", total_funds := 0, remaining_balance := 0,
      authorized_payout_key := 7, payout_history := [] }
    rfl (by decide) (by decide) (by decide)
  exact ⟨h1.1, h2.1⟩

/-- C9: `init_program` fails with the already-initialized error when a
program exists, and otherwise stores a ledger with `total_funds = 0`,
`remaining_balance = 0`, an empty `payout_history`, and the supplied
authorized signer as `authorized_payout_key`. -/
theorem init_program_spec (s : EscrowState) (pid : String) (key : Addr) :
    (∀ pd, s.programData = some pd →
      init_program s pid key = Except.error Err.AlreadyInit) ∧
    (s.programData = none →
      init_program s pid key =
        Except.ok
          ({ s with
              programData := some
                { program_id := pid, total_funds := 0,
                  remaining_balance := 0, authorized_payout_key := key,
                  payout_history := [] } },
           { program_id := pid, total_funds := 0, remaining_balance := 0,
             authorized_payout_key := key, payout_history := [] })) := by
  constructor
  · intro pd hpd
    unfold init_program
    rw [hpd]
  · intro hnone
    unfold init_program
    rw [hnone]

/-- Witness for C9: initializing the fresh contract stores the zero-balance
ledger with key 7; a second initialization attempt fails. -/
theorem init_program_spec_witness :
    init_program EscrowState.initial "p" 7 =
      Except.ok
        ({ programData := some
             { program_id := "p", total_funds := 0,
               remaining_balance := 0, authorized_payout_key := 7,
               payout_history := [] }
           nonces := NonceMap.empty
           now := 0 },
         { program_id := "p", total_funds := 0, remaining_balance := 0,
           authorized_payout_key := 7, payout_history := [] }) ∧
    init_program emptyLedgerState "q" 9 = Except.error Err.AlreadyInit :=
  ⟨(init_program_spec EscrowState.initial "p" 7).2 rfl,
   (init_program_spec emptyLedgerState "q" 9).1
     { program_id := "p", total_funds := 0, remaining_balance := 0,
       authorized_payout_key := 7, payout_history := [] } rfl⟩

/-- C10: calling `single_payout` before initialization fails with the
not-initialized error for every recipient, amount and nonce — the nonce
check never runs — and leaves the state, in particular every signer's
counter, unchanged. -/
theorem single_payout_uninitialized (s : EscrowState)
    (h : s.programData = none) (recipient : Addr) (amount : Int) (n : Nat) :
    single_payout s recipient amount n = Except.error Err.NotInit ∧
    applyOp s (Op.payout recipient amount n) = s ∧
    ∀ t : Addr, (applyOp s (Op.payout recipient amount n)).nonces t =
      s.nonces t := by
  have he : single_payout s recipient amount n =
      Except.error Err.NotInit := by
    unfold single_payout
    rw [h]
  have hs : applyOp s (Op.payout recipient amount n) = s := by
    simp only [applyOp]
    rw [he]
  exact ⟨he, hs, fun t => by rw [hs]⟩

/-- Witness for C10: on the uninitialized contract, a payout attempt with
an arbitrary (even invalid) nonce 3 fails with the not-initialized error
and signer 4's counter stays 0. -/
theorem single_payout_uninitialized_witness :
    single_payout EscrowState.initial 2 5 3 =
      Except.error Err.NotInit ∧
    (applyOp EscrowState.initial (Op.payout 2 5 3)).nonces 4 = 0 := by
  have h := single_payout_uninitialized EscrowState.initial rfl 2 5 3
  exact ⟨h.1, (h.2.2 4).trans rfl⟩
